import Mathlib

/-!
Shallow embedding of the SP-Portal quote calculation engine.

Two implementations exist in the repository:
* `NY` embeds `src/StateApplications/ny/quote-calculator.js` (the rate-card,
  gender-based calculator, canonical per the spec);
* `Legacy` embeds `src/quote-calculator.js` (the flat base-rate-times-multiplier
  calculator).

JavaScript numbers are modelled as exact rationals (`ℚ`) and parsed integer
counts as `ℤ` (JS `parseInt` preserves sign).  A raw form field that may be
missing or non-numeric is an `Option`: `parseInt(x) || 0` / `parseFloat(x) || 0`
become `Option.getD · 0` (both map a missing/NaN field and an explicit 0 to 0).
A JS string-or-boolean checkbox value is `CheckVal`; `v === 'on' || v === true`
becomes `CheckVal.isOn`.  A falsy-string default `s || d` becomes `strOr`.
-/

namespace SPPortal

/-- A raw checkbox-like form value: absent/undefined, a string, or a boolean. -/
inductive CheckVal where
  | absent : CheckVal
  | str : String → CheckVal
  | bool : Bool → CheckVal
deriving DecidableEq

/-- The coercion `v === 'on' || v === true` used throughout both calculators. -/
def CheckVal.isOn : CheckVal → Bool
  | .absent => false
  | .str s => s == "on"
  | .bool b => b

/-- JS `s || d` on an optional string field: missing or empty (falsy) gives `d`. -/
def strOr (v : Option String) (d : String) : String :=
  match v with
  | none => d
  | some s => if s = "" then d else s

/-- JS `s || null` on an optional string field: missing or empty gives null. -/
def strOrNull (v : Option String) : Option String :=
  match v with
  | none => none
  | some s => if s = "" then none else some s

/-- JS `Math.round`: round half toward positive infinity. -/
def jsRound (x : ℚ) : ℤ := ⌊x + 1 / 2⌋

/-- Raw form data handed to either calculator (union of the fields both read).
Missing fields are `none` / `CheckVal.absent`. -/
structure FormData where
  maleEmployees : Option ℤ := none
  femaleEmployees : Option ℤ := none
  dblBenefits : Option String := none
  billingOption : Option String := none
  inHospitalRider : CheckVal := .absent
  annualPayroll : Option ℚ := none
  employeesOverNYSAWW : Option ℤ := none
  payrollBelowNYSAWW : Option ℚ := none
  termLife15k : CheckVal := .absent
  eap : CheckVal := .absent
  nurseHelpline : CheckVal := .absent
  adddBenefit : Option String := none
  totalEmployees : Option ℤ := none
  totalPayroll : Option ℚ := none
  addBenefit : Option String := none
deriving DecidableEq

namespace NY

/-- Per-variant monthly unit rates for one (tier, billing frequency) cell. -/
structure VariantRates where
  male : ℚ
  female : ℚ
  maleWithHospital : ℚ
  femaleWithHospital : ℚ
deriving DecidableEq

/-- The two billing-frequency cells of one benefit tier. -/
structure TierRates where
  annual : VariantRates
  quarterly : VariantRates
deriving DecidableEq

/-- `DBL_RATES.statutory` from the source. -/
def statutoryRates : TierRates :=
  { annual := { male := 1.50, female := 3.25,
                maleWithHospital := 1.65, femaleWithHospital := 3.55 }
    quarterly := { male := 1.85, female := 3.90,
                   maleWithHospital := 1.95, femaleWithHospital := 4.25 } }

/-- `DBL_RATES['enriched1.5x']` from the source. -/
def enriched15Rates : TierRates :=
  { annual := { male := 2.10, female := 4.35,
                maleWithHospital := 2.25, femaleWithHospital := 4.75 }
    quarterly := { male := 2.45, female := 5.25,
                   maleWithHospital := 2.60, femaleWithHospital := 5.70 } }

/-- `DBL_RATES['enriched2x']` from the source. -/
def enriched2Rates : TierRates :=
  { annual := { male := 2.55, female := 5.60,
                maleWithHospital := 2.75, femaleWithHospital := 6.00 }
    quarterly := { male := 3.15, female := 6.70,
                   maleWithHospital := 3.30, femaleWithHospital := 7.20 } }

/-- `DBL_RATES['enriched3x']` from the source. -/
def enriched3Rates : TierRates :=
  { annual := { male := 3.90, female := 8.55,
                maleWithHospital := 4.15, femaleWithHospital := 9.00 }
    quarterly := { male := 4.75, female := 10.20,
                   maleWithHospital := 4.95, femaleWithHospital := 10.75 } }

/-- `DBL_RATES['enriched4x']` from the source. -/
def enriched4Rates : TierRates :=
  { annual := { male := 7.60, female := 16.65,
                maleWithHospital := 8.40, femaleWithHospital := 17.15 }
    quarterly := { male := 9.25, female := 19.80,
                   maleWithHospital := 9.45, femaleWithHospital := 20.40 } }

/-- `DBL_RATES['enriched5x']` from the source. -/
def enriched5Rates : TierRates :=
  { annual := { male := 9.75, female := 21.40,
                maleWithHospital := 10.80, femaleWithHospital := 21.90 }
    quarterly := { male := 11.90, female := 25.50,
                   maleWithHospital := 12.10, femaleWithHospital := 26.05 } }

/-- The `DBL_RATES` object: string-keyed lookup, `none` for a key not present. -/
def DBL_RATES (tier : String) : Option TierRates :=
  if tier = "statutory" then some statutoryRates
  else if tier = "enriched1.5x" then some enriched15Rates
  else if tier = "enriched2x" then some enriched2Rates
  else if tier = "enriched3x" then some enriched3Rates
  else if tier = "enriched4x" then some enriched4Rates
  else if tier = "enriched5x" then some enriched5Rates
  else none

/-- The `PFL_RATE` constant object. -/
structure PFLRateData where
  percentOfPayroll : ℚ
  annualCapPerEmployee : ℚ
  nysaww : ℚ
deriving DecidableEq

def PFL_RATE : PFLRateData :=
  { percentOfPayroll := 0.00432
    annualCapPerEmployee := 411.91
    nysaww := 95348.76 }

/-- The `MINIMUMS` constant object. -/
structure MinimumsData where
  annualDBL : ℚ
  quarterlyDBL : ℚ
deriving DecidableEq

def MINIMUMS : MinimumsData :=
  { annualDBL := 125.00, quarterlyDBL := 35.00 }

/-- The `OPTIONAL_BENEFITS` constant object (per employee per month). -/
structure OptionalBenefitsData where
  addd50k : ℚ
  addd100k : ℚ
  termLife15k : ℚ
  eap : ℚ
  nurseHelpline : ℚ
deriving DecidableEq

def OPTIONAL_BENEFITS : OptionalBenefitsData :=
  { addd50k := 1.00
    addd100k := 2.00
    termLife15k := 36 / 12
    eap := 36 / 12
    nurseHelpline := 54 / 12 }

/-- `calculateDBLPremium(maleCount, femaleCount, benefitTier, billingType,
includeHospital)`: `benefitTier || 'statutory'` defaults an empty/missing tier,
billing is `quarterly` only on exact match, an unknown tier logs an error and
returns 0. -/
def calculateDBLPremium (maleCount femaleCount : ℤ) (benefitTier billingType : String)
    (includeHospital : Bool) : ℚ :=
  let tier := if benefitTier = "" then "statutory" else benefitTier
  match DBL_RATES tier with
  | none => 0
  | some tr =>
    let rates := if billingType = "quarterly" then tr.quarterly else tr.annual
    if includeHospital then
      (maleCount : ℚ) * rates.maleWithHospital + (femaleCount : ℚ) * rates.femaleWithHospital
    else
      (maleCount : ℚ) * rates.male + (femaleCount : ℚ) * rates.female

/-- The `breakdown` object returned by `calculatePFLPremium`. -/
structure PFLBreakdown where
  employeesOverCap : ℤ
  pflFromOverCap : ℚ
  payrollBelowCap : ℚ
  pflFromBelowCap : ℚ
deriving DecidableEq

/-- The object returned by `calculatePFLPremium`. -/
structure PFLResult where
  annualTotal : ℚ
  monthlyTotal : ℚ
  annualPerEmployee : ℚ
  monthlyPerEmployee : ℚ
  breakdown : PFLBreakdown
deriving DecidableEq

/-- `calculatePFLPremium(employeesOverNYSAWW, payrollBelowNYSAWW, employeeCount)`.
The JS `x || 0` guards are identities on already-parsed numbers. -/
def calculatePFLPremium (employeesOverNYSAWW : ℤ) (payrollBelowNYSAWW : ℚ)
    (employeeCount : ℤ) : PFLResult :=
  let pflFromOverCap := (employeesOverNYSAWW : ℚ) * PFL_RATE.annualCapPerEmployee
  let payrollBelow := payrollBelowNYSAWW
  let pflFromBelowCap := payrollBelow * PFL_RATE.percentOfPayroll
  let annualPFL := pflFromOverCap + pflFromBelowCap
  let totalEmployeeCount := employeeCount
  { annualTotal := annualPFL
    monthlyTotal := annualPFL / 12
    annualPerEmployee := if totalEmployeeCount > 0 then annualPFL / (totalEmployeeCount : ℚ) else 0
    monthlyPerEmployee :=
      if totalEmployeeCount > 0 then annualPFL / 12 / (totalEmployeeCount : ℚ) else 0
    breakdown :=
      { employeesOverCap := employeesOverNYSAWW
        pflFromOverCap := pflFromOverCap
        payrollBelowCap := payrollBelow
        pflFromBelowCap := pflFromBelowCap } }

/-- The `selections` object consumed by `calculateOptionalBenefits`. -/
structure OptionalSelections where
  termLife15k : Bool
  eap : Bool
  nurseHelpline : Bool
  addd50k : Bool
  addd100k : Bool
deriving DecidableEq

/-- `calculateOptionalBenefits(employeeCount, selections)`. -/
def calculateOptionalBenefits (employeeCount : ℤ) (selections : OptionalSelections) : ℚ :=
  (if selections.termLife15k then (employeeCount : ℚ) * OPTIONAL_BENEFITS.termLife15k else 0) +
  (if selections.eap then (employeeCount : ℚ) * OPTIONAL_BENEFITS.eap else 0) +
  (if selections.nurseHelpline then (employeeCount : ℚ) * OPTIONAL_BENEFITS.nurseHelpline else 0) +
  (if selections.addd50k then (employeeCount : ℚ) * OPTIONAL_BENEFITS.addd50k else 0) +
  (if selections.addd100k then (employeeCount : ℚ) * OPTIONAL_BENEFITS.addd100k else 0)

/-- `applyMinimums(monthlyPremium, billingType)` of the NY calculator. -/
def applyMinimums (monthlyPremium : ℚ) (billingType : String) : ℚ :=
  if billingType = "annual" then
    if monthlyPremium * 12 < MINIMUMS.annualDBL then MINIMUMS.annualDBL / 12 else monthlyPremium
  else if billingType = "quarterly" then
    if monthlyPremium * 3 < MINIMUMS.quarterlyDBL then MINIMUMS.quarterlyDBL / 3
    else monthlyPremium
  else monthlyPremium

/-- The `breakdown` object of a quote result. -/
structure QuoteBreakdown where
  dblPremium : ℚ
  pflPremium : ℚ
  optionalCost : ℚ
  totalCost : ℚ
deriving DecidableEq

/-- The `perEmployeeBreakdown` object of a quote result. -/
structure PerEmployee where
  dblPerEmployee : ℚ
  pflPerEmployee : ℚ
  optionalPerEmployee : ℚ
  totalPerEmployee : ℚ
deriving DecidableEq

/-- The `employeeInfo` object of a quote result. -/
structure EmployeeInfo where
  male : ℤ
  female : ℤ
  total : ℤ
deriving DecidableEq

/-- The `estimatedGenderRatio` object set by `calculateQuoteWithEstimate`. -/
structure GenderSplit where
  male : ℚ
  female : ℚ
deriving DecidableEq

/-- The object returned by the NY `calculateQuote`.  Properties the
zero-employee branch omits are `Option`s (`none` = absent); `isEstimated` is
absent-or-`true` in JS, modelled as a `Bool` defaulting to `false` (both are
falsy). -/
structure QuoteResult where
  dblMonthly : ℚ
  pflMonthly : ℚ
  optionalMonthly : ℚ
  totalMonthly : ℚ
  displayAmount : ℚ
  billingPeriod : String
  periodMultiplier : Option ℚ := none
  breakdown : QuoteBreakdown
  perEmployeeBreakdown : Option PerEmployee := none
  employeeInfo : Option EmployeeInfo := none
  isEstimated : Bool := false
  estimatedGenderRatio : Option GenderSplit := none
deriving DecidableEq

/-- The `optionalSelections` record built inline in `calculateQuote`. -/
def selectionsOf (formData : FormData) : OptionalSelections :=
  { termLife15k := formData.termLife15k.isOn
    eap := formData.eap.isOn
    nurseHelpline := formData.nurseHelpline.isOn
    addd50k := formData.adddBenefit == some "50000"
    addd100k := formData.adddBenefit == some "100000" }

/-- `calculateQuote(formData)` of the NY calculator.  Note the zero-employee
branch hardcodes `billingPeriod: 'year'`, and `parseInt(x) || 0` keeps a
negative count.  (`annualPayroll` is parsed in the source but never used.) -/
def calculateQuote (formData : FormData) : QuoteResult :=
  let maleCount := formData.maleEmployees.getD 0
  let femaleCount := formData.femaleEmployees.getD 0
  let totalEmployees := maleCount + femaleCount
  if totalEmployees = 0 then
    { dblMonthly := 0
      pflMonthly := 0
      optionalMonthly := 0
      totalMonthly := 0
      displayAmount := 0
      billingPeriod := "year"
      breakdown := { dblPremium := 0, pflPremium := 0, optionalCost := 0, totalCost := 0 } }
  else
    let benefitTier := strOr formData.dblBenefits "statutory"
    let billingType := strOr formData.billingOption "annual"
    let includeHospital := formData.inHospitalRider.isOn
    let dblMonthly :=
      applyMinimums
        (calculateDBLPremium maleCount femaleCount benefitTier billingType includeHospital)
        billingType
    let employeesOverNYSAWW := formData.employeesOverNYSAWW.getD 0
    let payrollBelowNYSAWW := formData.payrollBelowNYSAWW.getD 0
    let pfl := calculatePFLPremium employeesOverNYSAWW payrollBelowNYSAWW totalEmployees
    let pflMonthly := pfl.monthlyTotal
    let optionalMonthly := calculateOptionalBenefits totalEmployees (selectionsOf formData)
    let totalMonthly := dblMonthly + pflMonthly + optionalMonthly
    let billingPeriod := if billingType = "quarterly" then "quarter" else "year"
    let periodMultiplier : ℚ := if billingPeriod = "year" then 12 else 3
    let displayAmount := totalMonthly * periodMultiplier
    { dblMonthly := dblMonthly
      pflMonthly := pflMonthly
      optionalMonthly := optionalMonthly
      totalMonthly := totalMonthly
      displayAmount := displayAmount
      billingPeriod := billingPeriod
      periodMultiplier := some periodMultiplier
      breakdown :=
        { dblPremium := dblMonthly * periodMultiplier
          pflPremium := pflMonthly * periodMultiplier
          optionalCost := optionalMonthly * periodMultiplier
          totalCost := displayAmount }
      perEmployeeBreakdown := some
        { dblPerEmployee := dblMonthly / (totalEmployees : ℚ)
          pflPerEmployee := pflMonthly / (totalEmployees : ℚ)
          optionalPerEmployee := optionalMonthly / (totalEmployees : ℚ)
          totalPerEmployee := totalMonthly / (totalEmployees : ℚ) }
      employeeInfo := some { male := maleCount, female := femaleCount, total := totalEmployees } }

/-- `calculateQuoteWithEstimate(formData, maleRatio = 0.5)`: with a zero total
it returns the plain zero quote (no estimation tag); otherwise it rounds
`total * ratio` for males, gives the remainder to females, delegates to
`calculateQuote`, and tags the result. -/
def calculateQuoteWithEstimate (formData : FormData) (maleRatio : ℚ) : QuoteResult :=
  let totalEmployees := formData.totalEmployees.getD 0
  if totalEmployees = 0 then
    calculateQuote { maleEmployees := some 0, femaleEmployees := some 0 }
  else
    let estimatedMales := jsRound ((totalEmployees : ℚ) * maleRatio)
    let estimatedFemales := totalEmployees - estimatedMales
    let updatedFormData :=
      { formData with
          maleEmployees := some estimatedMales
          femaleEmployees := some estimatedFemales }
    let quote := calculateQuote updatedFormData
    { quote with
        isEstimated := true
        estimatedGenderRatio := some { male := maleRatio, female := 1 - maleRatio } }

end NY

namespace Legacy

/-- The `PRICING` constant object of the legacy flat-rate calculator. -/
structure Pricing where
  baseRatePerEmployee : ℚ
  statutoryMultiplier : ℚ
  enriched1_5x : ℚ
  enriched2x : ℚ
  enriched3x : ℚ
  enriched4x : ℚ
  enriched5x : ℚ
  inHospitalRider : ℚ
  addd50k : ℚ
  addd100k : ℚ
  termLife15k : ℚ
  eap : ℚ
  nurseHelpline : ℚ
  quarterlyFee : ℚ
  annualMinimum : ℚ
  quarterlyMinimum : ℚ
  payrollRate : ℚ
deriving DecidableEq

def PRICING : Pricing :=
  { baseRatePerEmployee := 50
    statutoryMultiplier := 1.0
    enriched1_5x := 1.5
    enriched2x := 2.0
    enriched3x := 3.0
    enriched4x := 4.0
    enriched5x := 5.0
    inHospitalRider := 2.50
    addd50k := 1.25
    addd100k := 2.50
    termLife15k := 1.50
    eap := 0.75
    nurseHelpline := 0.50
    quarterlyFee := 15.00
    annualMinimum := 125.00
    quarterlyMinimum := 35.00
    payrollRate := 0.005 }

/-- `getDBLMultiplier(benefitValue)`: a switch whose default case falls back to
the statutory multiplier. -/
def getDBLMultiplier (benefitValue : String) : ℚ :=
  if benefitValue = "statutory" then PRICING.statutoryMultiplier
  else if benefitValue = "enriched1.5x" then PRICING.enriched1_5x
  else if benefitValue = "enriched2x" then PRICING.enriched2x
  else if benefitValue = "enriched3x" then PRICING.enriched3x
  else if benefitValue = "enriched4x" then PRICING.enriched4x
  else if benefitValue = "enriched5x" then PRICING.enriched5x
  else PRICING.statutoryMultiplier

/-- `calculateBasePremium(totalEmployees, multiplier, billingType, totalPayroll)`. -/
def calculateBasePremium (totalEmployees : ℤ) (multiplier : ℚ) (billingType : String)
    (totalPayroll : ℚ) : ℚ :=
  if billingType = "quarterlyPayroll" ∧ totalPayroll > 0 then
    totalPayroll * PRICING.payrollRate
  else
    (totalEmployees : ℚ) * PRICING.baseRatePerEmployee * multiplier

/-- `calculateRidersCost(totalEmployees, inHospitalSelected, adddBenefit)`. -/
def calculateRidersCost (totalEmployees : ℤ) (inHospitalSelected : Bool)
    (adddBenefit : Option String) : ℚ :=
  (if inHospitalSelected then (totalEmployees : ℚ) * PRICING.inHospitalRider else 0) +
  (if adddBenefit = some "50000" then (totalEmployees : ℚ) * PRICING.addd50k
   else if adddBenefit = some "100000" then (totalEmployees : ℚ) * PRICING.addd100k
   else 0)

/-- `calculateOptionalBenefitsCost(totalEmployees, termLifeSelected, eapSelected,
nurseHelplineSelected)`. -/
def calculateOptionalBenefitsCost (totalEmployees : ℤ) (termLifeSelected eapSelected
    nurseHelplineSelected : Bool) : ℚ :=
  (if termLifeSelected then (totalEmployees : ℚ) * PRICING.termLife15k else 0) +
  (if eapSelected then (totalEmployees : ℚ) * PRICING.eap else 0) +
  (if nurseHelplineSelected then (totalEmployees : ℚ) * PRICING.nurseHelpline else 0)

/-- `applyMinimums(monthlyPremium, billingType)` of the legacy calculator
(also floors the `quarterlyPayroll` billing type). -/
def applyMinimums (monthlyPremium : ℚ) (billingType : String) : ℚ :=
  if billingType = "annual" then
    if monthlyPremium * 12 < PRICING.annualMinimum then PRICING.annualMinimum / 12
    else monthlyPremium
  else if billingType = "quarterly" ∨ billingType = "quarterlyPayroll" then
    if monthlyPremium * 3 < PRICING.quarterlyMinimum then PRICING.quarterlyMinimum / 3
    else monthlyPremium
  else monthlyPremium

/-- `addBillingFees(monthlyPremium, billingType)`: quarterly billing adds the
flat installment fee prorated per month. -/
def addBillingFees (monthlyPremium : ℚ) (billingType : String) : ℚ :=
  if billingType = "quarterly" ∨ billingType = "quarterlyPayroll" then
    monthlyPremium + PRICING.quarterlyFee / 3
  else monthlyPremium

/-- The `breakdown` object of a legacy quote result. -/
structure LegacyBreakdown where
  basePremium : ℚ
  ridersCost : ℚ
  optionalCost : ℚ
  totalCost : ℚ
deriving DecidableEq

/-- The object returned by the legacy `calculateQuote`. -/
structure LegacyQuoteResult where
  baseMonthlyPremium : ℚ
  ridersMonthly : ℚ
  optionalMonthly : ℚ
  totalMonthly : ℚ
  displayAmount : ℚ
  billingPeriod : String
  breakdown : LegacyBreakdown
deriving DecidableEq

/-- `calculateQuote(formData)` of the legacy flat-rate calculator.  Minimums
are applied to the combined monthly total, then the quarterly fee is added on
top (after the floor).  Note the source reads `formData.addBenefit` here. -/
def calculateQuote (formData : FormData) : LegacyQuoteResult :=
  let totalEmployees := formData.totalEmployees.getD 0
  if totalEmployees = 0 then
    { baseMonthlyPremium := 0
      ridersMonthly := 0
      optionalMonthly := 0
      totalMonthly := 0
      displayAmount := 0
      billingPeriod := "year"
      breakdown := { basePremium := 0, ridersCost := 0, optionalCost := 0, totalCost := 0 } }
  else
    let multiplier := getDBLMultiplier (strOr formData.dblBenefits "statutory")
    let billingType := strOr formData.billingOption "annual"
    let billingPeriod :=
      if billingType = "quarterly" ∨ billingType = "quarterlyPayroll" then "quarter" else "year"
    let totalPayroll := formData.totalPayroll.getD 0
    let baseMonthlyPremium := calculateBasePremium totalEmployees multiplier billingType totalPayroll
    let ridersMonthly :=
      calculateRidersCost totalEmployees formData.inHospitalRider.isOn
        (strOrNull formData.addBenefit)
    let optionalMonthly :=
      calculateOptionalBenefitsCost totalEmployees formData.termLife15k.isOn
        formData.eap.isOn formData.nurseHelpline.isOn
    let totalMonthly :=
      addBillingFees
        (applyMinimums (baseMonthlyPremium + ridersMonthly + optionalMonthly) billingType)
        billingType
    let displayAmount := if billingPeriod = "year" then totalMonthly * 12 else totalMonthly * 3
    let periodMultiplier : ℚ := if billingPeriod = "year" then 12 else 3
    { baseMonthlyPremium := baseMonthlyPremium
      ridersMonthly := ridersMonthly
      optionalMonthly := optionalMonthly
      totalMonthly := totalMonthly
      displayAmount := displayAmount
      billingPeriod := billingPeriod
      breakdown :=
        { basePremium := baseMonthlyPremium * periodMultiplier
          ridersCost := ridersMonthly * periodMultiplier
          optionalCost := optionalMonthly * periodMultiplier
          totalCost := displayAmount } }

end Legacy

/-! ## Helper lemmas -/

/-- Inversion for `DBL_RATES`: a successful lookup returns one of the six
tier-rate records. -/
lemma dbl_rates_cases {tier : String} {tr : NY.TierRates} (h : NY.DBL_RATES tier = some tr) :
    tr = NY.statutoryRates ∨ tr = NY.enriched15Rates ∨ tr = NY.enriched2Rates ∨
    tr = NY.enriched3Rates ∨ tr = NY.enriched4Rates ∨ tr = NY.enriched5Rates := by
  unfold NY.DBL_RATES at h
  split_ifs at h <;> simp_all

/-- A tier present in `DBL_RATES` is not the empty string. -/
lemma dbl_rates_ne_empty {tier : String} {tr : NY.TierRates}
    (h : NY.DBL_RATES tier = some tr) : tier ≠ "" := by
  rintro rfl
  simp [NY.DBL_RATES] at h

/-- Unfolding of `calculateDBLPremium` when the tier is present in the table. -/
lemma calculateDBLPremium_of_rates {tier : String} {tr : NY.TierRates}
    (h : NY.DBL_RATES tier = some tr) (m f : ℤ) (b : String) (hosp : Bool) :
    NY.calculateDBLPremium m f tier b hosp =
      (if hosp then
        (m : ℚ) * (if b = "quarterly" then tr.quarterly else tr.annual).maleWithHospital +
          (f : ℚ) * (if b = "quarterly" then tr.quarterly else tr.annual).femaleWithHospital
       else
        (m : ℚ) * (if b = "quarterly" then tr.quarterly else tr.annual).male +
          (f : ℚ) * (if b = "quarterly" then tr.quarterly else tr.annual).female) := by
  have hne : tier ≠ "" := dbl_rates_ne_empty h
  simp only [NY.calculateDBLPremium, if_neg hne, h]

/-- A gender-weighted sum strictly grows when both unit rates grow and at least
one count is positive. -/
lemma hospital_premium_lt (r : NY.VariantRates) (h1 : r.male < r.maleWithHospital)
    (h2 : r.female < r.femaleWithHospital) (m f : ℕ) (hpos : 0 < m + f) :
    ((m : ℤ) : ℚ) * r.male + ((f : ℤ) : ℚ) * r.female <
      ((m : ℤ) : ℚ) * r.maleWithHospital + ((f : ℤ) : ℚ) * r.femaleWithHospital := by
  rcases Nat.eq_zero_or_pos m with hm | hm
  · subst hm
    have hfq : (0 : ℚ) < ((f : ℤ) : ℚ) := by
      have : 0 < f := by omega
      exact_mod_cast this
    simpa using (mul_lt_mul_left hfq).mpr h2
  · have hmq : (0 : ℚ) < ((m : ℤ) : ℚ) := by exact_mod_cast hm
    have hfq : (0 : ℚ) ≤ ((f : ℤ) : ℚ) := by positivity
    exact add_lt_add_of_lt_of_le ((mul_lt_mul_left hmq).mpr h1)
      (mul_le_mul_of_nonneg_left h2.le hfq)

/-- The `pflMonthly` field of the NY quote as a function of the four fields the
PFL line depends on. -/
lemma pflMonthly_eq (fd : FormData) :
    (NY.calculateQuote fd).pflMonthly =
      (if fd.maleEmployees.getD 0 + fd.femaleEmployees.getD 0 = 0 then 0 else
        (NY.calculatePFLPremium (fd.employeesOverNYSAWW.getD 0) (fd.payrollBelowNYSAWW.getD 0)
          (fd.maleEmployees.getD 0 + fd.femaleEmployees.getD 0)).monthlyTotal) := by
  by_cases h : fd.maleEmployees.getD 0 + fd.femaleEmployees.getD 0 = 0
  · simp only [NY.calculateQuote, if_pos h]
  · simp only [NY.calculateQuote, if_neg h]

/-! ## Claim theorems -/

/-- C1 counterexample: with one male employee, annual billing and no hospital
rider, the unrecognized tier "bogus" yields a DBL premium of 0, which differs
from the statutory premium of 1.50 — the engine does not fall back to the
statutory tier's rates. -/
theorem unrecognized_tier_not_statutory_cex :
    NY.calculateDBLPremium 1 0 "bogus" "annual" false ≠
      NY.calculateDBLPremium 1 0 "statutory" "annual" false := by
  simp [NY.calculateDBLPremium, NY.DBL_RATES, NY.statutoryRates]
  norm_num

/-- C1 (amended): a non-empty unrecognized benefit tier yields a DBL premium of
0 (with a logged error), never throwing; only a missing/empty tier falls back
to the statutory tier's rates. -/
theorem unrecognized_tier_yields_zero :
    (∀ (m f : ℤ) (b : String) (hosp : Bool) (tier : String),
        tier ≠ "" → NY.DBL_RATES tier = none →
        NY.calculateDBLPremium m f tier b hosp = 0) ∧
    (∀ (m f : ℤ) (b : String) (hosp : Bool),
        NY.calculateDBLPremium m f "" b hosp =
          NY.calculateDBLPremium m f "statutory" b hosp) := by
  constructor
  · intro m f b hosp tier hne hnone
    simp only [NY.calculateDBLPremium, if_neg hne, hnone]
  · intro m f b hosp
    rfl

/-- C1 witness: the amended theorem applied at the unrecognized tier "bogus"
with 1 male employee, annual billing, no hospital rider. -/
theorem unrecognized_tier_yields_zero_witness :
    NY.calculateDBLPremium 1 0 "bogus" "annual" false = 0 :=
  unrecognized_tier_yields_zero.1 1 0 "annual" false "bogus" (by decide) (by decide)

/-- C2 counterexample: for the zero-employee input with `employeesOverNYSAWW = 1`
the result's `pflMonthly` is 0 (short-circuit), while the raw PFL calculator on
the same parsed fields returns 411.91/12 — so `pflMonthly` does not equal the
raw PFL output for *every* input. -/
theorem min_floor_zero_employee_cex :
    (NY.calculateQuote { employeesOverNYSAWW := some 1 }).pflMonthly ≠
      (NY.calculatePFLPremium 1 0 0).monthlyTotal := by
  simp [NY.calculateQuote, NY.calculatePFLPremium, NY.PFL_RATE]
  norm_num

/-- C2 (amended): for every input with a nonzero parsed employee total,
`pflMonthly` and `optionalMonthly` are the raw outputs of the PFL and
optional-benefits calculators (untouched by the minimum adjustment), and
`dblMonthly` is the minimum-adjusted DBL premium. -/
theorem min_floor_applies_to_dbl_only (fd : FormData)
    (h : ¬ fd.maleEmployees.getD 0 + fd.femaleEmployees.getD 0 = 0) :
    (NY.calculateQuote fd).pflMonthly =
      (NY.calculatePFLPremium (fd.employeesOverNYSAWW.getD 0) (fd.payrollBelowNYSAWW.getD 0)
        (fd.maleEmployees.getD 0 + fd.femaleEmployees.getD 0)).monthlyTotal ∧
    (NY.calculateQuote fd).optionalMonthly =
      NY.calculateOptionalBenefits (fd.maleEmployees.getD 0 + fd.femaleEmployees.getD 0)
        (NY.selectionsOf fd) ∧
    (NY.calculateQuote fd).dblMonthly =
      NY.applyMinimums
        (NY.calculateDBLPremium (fd.maleEmployees.getD 0) (fd.femaleEmployees.getD 0)
          (strOr fd.dblBenefits "statutory") (strOr fd.billingOption "annual")
          fd.inHospitalRider.isOn)
        (strOr fd.billingOption "annual") := by
  simp only [NY.calculateQuote, if_neg h]
  exact ⟨trivial, trivial, trivial⟩

/-- C2 witness: the amended theorem applied to a one-male-employee input. -/
theorem min_floor_applies_to_dbl_only_witness :
    (NY.calculateQuote { maleEmployees := some 1 }).pflMonthly =
      (NY.calculatePFLPremium 0 0 1).monthlyTotal ∧
    (NY.calculateQuote { maleEmployees := some 1 }).optionalMonthly =
      NY.calculateOptionalBenefits 1 (NY.selectionsOf { maleEmployees := some 1 }) ∧
    (NY.calculateQuote { maleEmployees := some 1 }).dblMonthly =
      NY.applyMinimums (NY.calculateDBLPremium 1 0 "statutory" "annual" false) "annual" :=
  min_floor_applies_to_dbl_only { maleEmployees := some 1 } (by decide)

/-- C4 counterexample: with zero employees and quarterly billing selected, the
short-circuit result's `billingPeriod` is "year", not the billing-selection
derived "quarter". -/
theorem zero_quote_billing_period_cex :
    (NY.calculateQuote
        { maleEmployees := some 0, femaleEmployees := some 0,
          billingOption := some "quarterly" }).billingPeriod ≠ "quarter" := by
  decide

/-- C4 (amended): whenever the parsed employee total is 0, `calculateQuote`
short-circuits to the quote whose monetary fields are all 0 — but with
`billingPeriod` hardcoded to "year" regardless of the billing selection. -/
theorem zero_employee_short_circuit (fd : FormData)
    (h : fd.maleEmployees.getD 0 + fd.femaleEmployees.getD 0 = 0) :
    NY.calculateQuote fd =
      { dblMonthly := 0, pflMonthly := 0, optionalMonthly := 0, totalMonthly := 0,
        displayAmount := 0, billingPeriod := "year",
        breakdown := { dblPremium := 0, pflPremium := 0, optionalCost := 0, totalCost := 0 } } := by
  simp only [NY.calculateQuote, if_pos h]

/-- C4 witness: the amended theorem applied to a zero-employee input that
selects quarterly billing. -/
theorem zero_employee_short_circuit_witness :
    NY.calculateQuote
        { maleEmployees := some 0, femaleEmployees := some 0,
          billingOption := some "quarterly" } =
      { dblMonthly := 0, pflMonthly := 0, optionalMonthly := 0, totalMonthly := 0,
        displayAmount := 0, billingPeriod := "year",
        breakdown := { dblPremium := 0, pflPremium := 0, optionalCost := 0, totalCost := 0 } } :=
  zero_employee_short_circuit
    { maleEmployees := some 0, femaleEmployees := some 0, billingOption := some "quarterly" }
    (by decide)

/-- C5: the annual PFL premium is
`employeesOverThreshold * annualCapPerEmployee + payrollBelowThreshold * percentOfPayroll`,
exposed monthly (`/12`) and per-employee (`/totalEmployees`, 0 when the count
is not positive); 10 employees below the threshold with $500,000 payroll give
exactly $2160.00 annual PFL, and 1 employee over with 0 below gives exactly
$411.91. -/
theorem pfl_formula :
    (∀ (over : ℤ) (below : ℚ) (count : ℤ),
        (NY.calculatePFLPremium over below count).annualTotal =
          (over : ℚ) * NY.PFL_RATE.annualCapPerEmployee +
            below * NY.PFL_RATE.percentOfPayroll ∧
        (NY.calculatePFLPremium over below count).monthlyTotal =
          (NY.calculatePFLPremium over below count).annualTotal / 12 ∧
        (NY.calculatePFLPremium over below count).annualPerEmployee =
          (if count > 0 then (NY.calculatePFLPremium over below count).annualTotal / (count : ℚ)
           else 0) ∧
        (NY.calculatePFLPremium over below count).monthlyPerEmployee =
          (if count > 0 then
            (NY.calculatePFLPremium over below count).annualTotal / 12 / (count : ℚ)
           else 0)) ∧
    (NY.calculatePFLPremium 0 500000 10).annualTotal = 2160 ∧
    (NY.calculatePFLPremium 1 0 1).annualTotal = 411.91 := by
  refine ⟨fun over below count => ⟨rfl, rfl, ?_, ?_⟩, ?_, ?_⟩
  · simp only [NY.calculatePFLPremium]
  · simp only [NY.calculatePFLPremium]
  · simp [NY.calculatePFLPremium, NY.PFL_RATE]
    norm_num
  · simp [NY.calculatePFLPremium, NY.PFL_RATE]

/-- C6: for the statutory tier, annual billing and exactly one male employee,
the raw DBL premium is $1.50/month ($18/year), below the $125 annual minimum,
so the result's annual DBL line is exactly $125.00, not $18.00. -/
theorem dbl_minimum_floor_one_male :
    NY.calculateDBLPremium 1 0 "statutory" "annual" false = 1.50 ∧
    NY.calculateDBLPremium 1 0 "statutory" "annual" false * 12 < NY.MINIMUMS.annualDBL ∧
    (NY.calculateQuote { maleEmployees := some 1 }).breakdown.dblPremium = 125 ∧
    (NY.calculateQuote { maleEmployees := some 1 }).breakdown.dblPremium ≠ 18 := by
  refine ⟨?_, ?_, ?_, ?_⟩ <;>
    simp [NY.calculateQuote, NY.calculateDBLPremium, NY.DBL_RATES, NY.statutoryRates,
      NY.applyMinimums, NY.MINIMUMS, NY.calculatePFLPremium, NY.PFL_RATE,
      NY.calculateOptionalBenefits, NY.selectionsOf, NY.OPTIONAL_BENEFITS, strOr,
      CheckVal.isOn] <;> norm_num

/-- C7 counterexample: the quote for `maleEmployees = -1, femaleEmployees = 100`
differs from the quote computed with the negative count replaced by 0 — the
engine does not clamp negative counts to zero. -/
theorem negative_count_not_clamped_cex :
    (NY.calculateQuote { maleEmployees := some (-1), femaleEmployees := some 100 }).dblMonthly ≠
      (NY.calculateQuote { maleEmployees := some 0, femaleEmployees := some 100 }).dblMonthly := by
  simp [NY.calculateQuote, NY.calculateDBLPremium, NY.DBL_RATES, NY.statutoryRates,
    NY.applyMinimums, NY.MINIMUMS, strOr, CheckVal.isOn]
  norm_num

/-- C7 (amended): normalization coerces missing/non-numeric counts to 0 but
does not clamp negative counts: `maleEmployees = -1` enters the DBL sum with
its sign (premium 323.50 instead of the clamped 325.00), and a negative
currency value can reach the result (for `maleEmployees = -5, femaleEmployees = 3`
the per-employee DBL figure is negative). -/
theorem negative_count_propagates :
    (NY.calculateQuote { maleEmployees := some (-1), femaleEmployees := some 100 }).dblMonthly =
      (-1 : ℚ) * NY.statutoryRates.annual.male + (100 : ℚ) * NY.statutoryRates.annual.female ∧
    (NY.calculateQuote { maleEmployees := some 0, femaleEmployees := some 100 }).dblMonthly =
      (100 : ℚ) * NY.statutoryRates.annual.female ∧
    ((NY.calculateQuote { maleEmployees := some (-5), femaleEmployees := some 3
        }).perEmployeeBreakdown.map (fun pb => pb.dblPerEmployee)).getD 0 < 0 := by
  refine ⟨?_, ?_, ?_⟩ <;>
    simp [NY.calculateQuote, NY.calculateDBLPremium, NY.DBL_RATES, NY.statutoryRates,
      NY.applyMinimums, NY.MINIMUMS, strOr, CheckVal.isOn] <;> norm_num

/-- C3 counterexample: in the canonical NY engine, 1 male employee with
quarterly billing yields a total monthly premium equal to the floored DBL
premium with no installment fee added — adding the legacy $15 fee prorated by
3 would give a different value, so the engine does not add a quarterly
installment fee. -/
theorem ny_quarterly_fee_cex :
    (NY.calculateQuote
        { maleEmployees := some 1, billingOption := some "quarterly" }).totalMonthly =
      NY.applyMinimums (NY.calculateDBLPremium 1 0 "statutory" "quarterly" false) "quarterly" ∧
    NY.applyMinimums (NY.calculateDBLPremium 1 0 "statutory" "quarterly" false) "quarterly" +
        Legacy.PRICING.quarterlyFee / 3 ≠
      (NY.calculateQuote
        { maleEmployees := some 1, billingOption := some "quarterly" }).totalMonthly := by
  constructor
  · simp [NY.calculateQuote, NY.calculateDBLPremium, NY.DBL_RATES, NY.statutoryRates,
      NY.applyMinimums, NY.MINIMUMS, NY.calculatePFLPremium, NY.PFL_RATE,
      NY.calculateOptionalBenefits, NY.selectionsOf, NY.OPTIONAL_BENEFITS, strOr, CheckVal.isOn]
  · simp [NY.calculateQuote, NY.calculateDBLPremium, NY.DBL_RATES, NY.statutoryRates,
      NY.applyMinimums, NY.MINIMUMS, NY.calculatePFLPremium, NY.PFL_RATE,
      NY.calculateOptionalBenefits, NY.selectionsOf, NY.OPTIONAL_BENEFITS,
      Legacy.PRICING, strOr, CheckVal.isOn]
    norm_num

/-- C3 (amended): only the legacy flat-rate calculator adds the quarterly
installment fee: with quarterly billing and a nonzero employee total, its total
monthly premium is the minimum-floored combined premium plus
`PRICING.quarterlyFee / 3`, the fee added after (and not subject to) the floor;
the canonical NY engine adds no billing fee at all. -/
theorem quarterly_fee_legacy_only (fd : FormData)
    (hq : strOr fd.billingOption "annual" = "quarterly")
    (hn : ¬ fd.totalEmployees.getD 0 = 0) :
    (Legacy.calculateQuote fd).totalMonthly =
      Legacy.applyMinimums
        (Legacy.calculateBasePremium (fd.totalEmployees.getD 0)
            (Legacy.getDBLMultiplier (strOr fd.dblBenefits "statutory")) "quarterly"
            (fd.totalPayroll.getD 0) +
          Legacy.calculateRidersCost (fd.totalEmployees.getD 0) fd.inHospitalRider.isOn
            (strOrNull fd.addBenefit) +
          Legacy.calculateOptionalBenefitsCost (fd.totalEmployees.getD 0) fd.termLife15k.isOn
            fd.eap.isOn fd.nurseHelpline.isOn)
        "quarterly" + Legacy.PRICING.quarterlyFee / 3 := by
  simp only [Legacy.calculateQuote, if_neg hn, hq]
  simp [Legacy.addBillingFees]

/-- C3 witness: the amended theorem applied to one employee billed quarterly. -/
theorem quarterly_fee_legacy_only_witness :
    (Legacy.calculateQuote
        { totalEmployees := some 1, billingOption := some "quarterly" }).totalMonthly =
      Legacy.applyMinimums
        (Legacy.calculateBasePremium 1 (Legacy.getDBLMultiplier "statutory") "quarterly" 0 +
          Legacy.calculateRidersCost 1 false none +
          Legacy.calculateOptionalBenefitsCost 1 false false false)
        "quarterly" + Legacy.PRICING.quarterlyFee / 3 :=
  quarterly_fee_legacy_only
    { totalEmployees := some 1, billingOption := some "quarterly" } rfl (by decide)

/-- C8 counterexample: with a zero total headcount, `calculateQuoteWithEstimate`
returns the plain zero quote whose `isEstimated` flag is not set. -/
theorem estimate_zero_total_cex :
    (NY.calculateQuoteWithEstimate { totalEmployees := some 0 } (1 / 2)).isEstimated = false :=
  rfl

/-- C8 (amended): for a nonzero parsed total, `calculateQuoteWithEstimate`
rounds `total * maleRatio` for males, assigns the remainder to females,
delegates to `calculateQuote` on that split, and tags the result as estimated;
for a zero total it returns the untagged zero quote. -/
theorem estimate_split_and_tag (fd : FormData) (maleRatio : ℚ)
    (h : ¬ fd.totalEmployees.getD 0 = 0) :
    NY.calculateQuoteWithEstimate fd maleRatio =
      { NY.calculateQuote
          { fd with
              maleEmployees := some (jsRound ((fd.totalEmployees.getD 0 : ℚ) * maleRatio))
              femaleEmployees :=
                some (fd.totalEmployees.getD 0 -
                  jsRound ((fd.totalEmployees.getD 0 : ℚ) * maleRatio)) } with
          isEstimated := true
          estimatedGenderRatio := some { male := maleRatio, female := 1 - maleRatio } } := by
  simp only [NY.calculateQuoteWithEstimate, if_neg h]

/-- C8 witness: the amended theorem applied to a total of 4 with ratio 1/2;
the resulting quote carries the estimation tag. -/
theorem estimate_split_and_tag_witness :
    (NY.calculateQuoteWithEstimate { totalEmployees := some 4 } (1 / 2)).isEstimated = true := by
  rw [estimate_split_and_tag { totalEmployees := some 4 } (1 / 2) (by decide)]

/-- C9 counterexample: with zero male and zero female employees the DBL premium
with the hospital rider equals the premium without it — the rider does not
strictly increase the premium for *every* pair of counts. -/
theorem hospital_rider_zero_counts_cex :
    NY.calculateDBLPremium 0 0 "statutory" "annual" true =
      NY.calculateDBLPremium 0 0 "statutory" "annual" false := by
  simp [NY.calculateDBLPremium, NY.DBL_RATES, NY.statutoryRates]

/-- C9 (amended): every `*WithHospital` unit rate in the rate table strictly
exceeds its base-variant counterpart, and consequently, for every recognized
tier, billing string and counts totalling at least one employee, enabling the
hospital rider strictly increases the DBL monthly premium. -/
theorem hospital_rider_strict_increase :
    (∀ (tier : String) (tr : NY.TierRates), NY.DBL_RATES tier = some tr →
        tr.annual.male < tr.annual.maleWithHospital ∧
        tr.annual.female < tr.annual.femaleWithHospital ∧
        tr.quarterly.male < tr.quarterly.maleWithHospital ∧
        tr.quarterly.female < tr.quarterly.femaleWithHospital) ∧
    (∀ (tier b : String) (m f : ℕ), (NY.DBL_RATES tier).isSome → 0 < m + f →
        NY.calculateDBLPremium (m : ℤ) (f : ℤ) tier b false <
          NY.calculateDBLPremium (m : ℤ) (f : ℤ) tier b true) := by
  have hrates : ∀ {tier : String} {tr : NY.TierRates}, NY.DBL_RATES tier = some tr →
      tr.annual.male < tr.annual.maleWithHospital ∧
      tr.annual.female < tr.annual.femaleWithHospital ∧
      tr.quarterly.male < tr.quarterly.maleWithHospital ∧
      tr.quarterly.female < tr.quarterly.femaleWithHospital := by
    intro tier tr h
    rcases dbl_rates_cases h with rfl | rfl | rfl | rfl | rfl | rfl <;>
      refine ⟨?_, ?_, ?_, ?_⟩ <;>
        norm_num [NY.statutoryRates, NY.enriched15Rates, NY.enriched2Rates,
          NY.enriched3Rates, NY.enriched4Rates, NY.enriched5Rates]
  refine ⟨fun tier tr h => hrates h, ?_⟩
  intro tier b m f hsome hpos
  obtain ⟨tr, h⟩ := Option.isSome_iff_exists.mp hsome
  obtain ⟨h1, h2, h3, h4⟩ := hrates h
  rw [calculateDBLPremium_of_rates h, calculateDBLPremium_of_rates h]
  by_cases hb : b = "quarterly"
  · simp only [if_pos hb, if_pos rfl]
    exact hospital_premium_lt _ h3 h4 m f hpos
  · simp only [if_neg hb]
    exact hospital_premium_lt _ h1 h2 m f hpos

/-- C9 witness: the second part of the theorem applied to the statutory tier,
annual billing, one male employee. -/
theorem hospital_rider_strict_increase_witness :
    NY.calculateDBLPremium ((1 : ℕ) : ℤ) ((0 : ℕ) : ℤ) "statutory" "annual" false <
      NY.calculateDBLPremium ((1 : ℕ) : ℤ) ((0 : ℕ) : ℤ) "statutory" "annual" true :=
  hospital_rider_strict_increase.2 "statutory" "annual" 1 0 (by decide) (by decide)

/-- C10: the PFL line is independent of the DBL options: two form inputs
agreeing on the employee counts, `employeesOverNYSAWW` and `payrollBelowNYSAWW`
(and arbitrary everywhere else, in particular in `dblBenefits`,
`billingOption` and `inHospitalRider`) get the same `pflMonthly`. -/
theorem pfl_noninterference (fd1 fd2 : FormData)
    (hm : fd1.maleEmployees = fd2.maleEmployees)
    (hf : fd1.femaleEmployees = fd2.femaleEmployees)
    (ho : fd1.employeesOverNYSAWW = fd2.employeesOverNYSAWW)
    (hp : fd1.payrollBelowNYSAWW = fd2.payrollBelowNYSAWW) :
    (NY.calculateQuote fd1).pflMonthly = (NY.calculateQuote fd2).pflMonthly := by
  rw [pflMonthly_eq, pflMonthly_eq, hm, hf, ho, hp]

/-- C10 witness: the theorem applied to two concrete inputs differing in tier,
billing and the hospital rider. -/
theorem pfl_noninterference_witness :
    (NY.calculateQuote
        { maleEmployees := some 2, femaleEmployees := some 3,
          employeesOverNYSAWW := some 1, payrollBelowNYSAWW := some 100000,
          dblBenefits := some "enriched5x", billingOption := some "quarterly",
          inHospitalRider := .str "on" }).pflMonthly =
      (NY.calculateQuote
        { maleEmployees := some 2, femaleEmployees := some 3,
          employeesOverNYSAWW := some 1, payrollBelowNYSAWW := some 100000 }).pflMonthly :=
  pfl_noninterference _ _ rfl rfl rfl rfl

end SPPortal
